import Mathlib

/-!
Verification of the go-growatt inverter core: a shallow embedding of the
telemetry decoder, the poll-loop step, the state-change detection of the
main loop, and the clock-reconciliation routine, together with theorems
about the properties stated for them.

Raw register words are unsigned 16-bit values, modelled as `Fin 65536`.
The `uint32` arithmetic of the decoder is modelled on `Nat` with an
explicit `% 4294967296` where an operation can exceed 32 bits (only the
two `* 100` energy totals can: combining two 16-bit words with
`<<< 16` / `|||` always stays below `2 ^ 32`, and the divisions only
shrink their argument).
-/

namespace Growatt

/-- The closed state-code table of the source (a Go map whose lookup miss
yields the zero value, the empty string): 0 is waiting, 1 is normal,
3 is fault, anything else decodes to the empty label. -/
def InverterStateCodes (code : Nat) : String :=
  if code = 0 then "waiting"
  else if code = 1 then "normal"
  else if code = 3 then "fault"
  else ""

/-- The decoded telemetry record produced by `getStats`. Numeric fields keep
the source's unsigned widths as plain naturals. -/
structure Stats where
  Timestamp : String
  State : String
  PVInputPower : Nat
  PV1InputVolt : Nat
  PV1InputCurrent : Nat
  PV1InputWatt : Nat
  PV2InputVolt : Nat
  PV2InputCurrent : Nat
  PV2InputWatt : Nat
  ACWatt : Nat
  ACFrequency : Nat
  AC1Volt : Nat
  AC1Current : Nat
  AC1Watt : Nat
  AC2Volt : Nat
  AC2Current : Nat
  AC2Watt : Nat
  AC3Volt : Nat
  AC3Current : Nat
  AC3Watt : Nat
  TotalTodayWatt : Nat
  TotalAllTimeWatt : Nat
  TotalWorkTimeSecs : Nat
  Temperature : Nat
  FaultCode : Nat
deriving DecidableEq

/-- The decoder: one 41-word raw input-register block to one `Stats` record.
The timestamp is the host-supplied capture time, passed in as `ts`. Field
by field this mirrors the source `getStats`; note that the source computes
`PV1InputWatt` from `data[5]` twice (not `data[5]` and `data[6]`). -/
def getStats (ts : String) (data : Fin 41 → Fin 65536) : Stats :=
  { Timestamp := ts
    State := InverterStateCodes (data 0).val
    PVInputPower := ((data 1).val <<< 16 ||| (data 2).val) / 10
    PV1InputVolt := (data 3).val / 10
    PV1InputCurrent := (data 4).val / 10
    PV1InputWatt := ((data 5).val <<< 16 ||| (data 5).val) / 10
    PV2InputVolt := (data 7).val / 10
    PV2InputCurrent := (data 8).val / 10
    PV2InputWatt := ((data 9).val <<< 16 ||| (data 10).val) / 10
    ACWatt := ((data 11).val <<< 16 ||| (data 12).val) / 10
    ACFrequency := (data 13).val / 100
    AC1Volt := (data 14).val / 10
    AC1Current := (data 15).val / 10
    AC1Watt := ((data 16).val <<< 16 ||| (data 17).val) / 10
    AC2Volt := (data 18).val / 10
    AC2Current := (data 19).val / 10
    AC2Watt := ((data 20).val <<< 16 ||| (data 21).val) / 10
    AC3Volt := (data 22).val / 10
    AC3Current := (data 23).val / 10
    AC3Watt := ((data 24).val <<< 16 ||| (data 25).val) / 10
    TotalTodayWatt := (((data 26).val <<< 16 ||| (data 27).val) * 100) % 4294967296
    TotalAllTimeWatt := (((data 28).val <<< 16 ||| (data 29).val) * 100) % 4294967296
    TotalWorkTimeSecs := ((data 30).val <<< 16 ||| (data 31).val) / 2
    Temperature := (data 32).val / 10
    FaultCode := (data 40).val }

/-- A concrete raw block exhibiting the duplicate-word slip in the decoder:
word 5 is 0, word 6 is 20, every other word is 0. -/
def dupWordBlock : Fin 41 → Fin 65536 :=
  fun i => if i.val = 6 then (20 : Fin 65536) else (0 : Fin 65536)

/-- C1: the claim says `PV1_input_watt` is decoded as `((hi <<< 16) ||| lo) / 10`
from the two consecutive words 5 and 6. On the block with word 5 = 0 and
word 6 = 20 the source decodes `PV1InputWatt` to `((0 <<< 16) ||| 0) / 10 = 0`,
whereas the claimed formula yields `((0 <<< 16) ||| 20) / 10 = 2`: the source
reads `data[5]` for both halves, never consulting word 6. -/
theorem pv1InputWatt_duplicate_word :
    (getStats "" dupWordBlock).PV1InputWatt = 0 ∧
    ((dupWordBlock 5).val <<< 16 ||| (dupWordBlock 6).val) / 10 = 2 := by
  constructor <;> rfl

/-- C8: the per-field scalings of the decoder, with integer truncation:
voltage and current fields are raw/10 (both PV strings and the three AC
phases), AC frequency is raw/100, the two cumulative energy totals are
`((hi <<< 16) ||| lo) * 100` in the decoder's unsigned 32-bit arithmetic,
the runtime-seconds field is `((hi <<< 16) ||| lo) / 2`, temperature is
raw/10, and the fault code is word 40 unscaled. The final conjunct shows
the totals equal the plain product whenever that product fits in 32 bits. -/
theorem getStats_field_scaling (ts : String) (d : Fin 41 → Fin 65536) :
    (getStats ts d).PV1InputVolt = (d 3).val / 10 ∧
    (getStats ts d).PV1InputCurrent = (d 4).val / 10 ∧
    (getStats ts d).PV2InputVolt = (d 7).val / 10 ∧
    (getStats ts d).PV2InputCurrent = (d 8).val / 10 ∧
    (getStats ts d).ACFrequency = (d 13).val / 100 ∧
    (getStats ts d).AC1Volt = (d 14).val / 10 ∧
    (getStats ts d).AC1Current = (d 15).val / 10 ∧
    (getStats ts d).AC2Volt = (d 18).val / 10 ∧
    (getStats ts d).AC2Current = (d 19).val / 10 ∧
    (getStats ts d).AC3Volt = (d 22).val / 10 ∧
    (getStats ts d).AC3Current = (d 23).val / 10 ∧
    (getStats ts d).TotalTodayWatt = (((d 26).val <<< 16 ||| (d 27).val) * 100) % 4294967296 ∧
    (getStats ts d).TotalAllTimeWatt = (((d 28).val <<< 16 ||| (d 29).val) * 100) % 4294967296 ∧
    (getStats ts d).TotalWorkTimeSecs = ((d 30).val <<< 16 ||| (d 31).val) / 2 ∧
    (getStats ts d).Temperature = (d 32).val / 10 ∧
    (getStats ts d).FaultCode = (d 40).val ∧
    ((((d 26).val <<< 16 ||| (d 27).val) * 100 < 4294967296 →
        (getStats ts d).TotalTodayWatt = ((d 26).val <<< 16 ||| (d 27).val) * 100) ∧
      (((d 28).val <<< 16 ||| (d 29).val) * 100 < 4294967296 →
        (getStats ts d).TotalAllTimeWatt = ((d 28).val <<< 16 ||| (d 29).val) * 100)) := by
  refine ⟨rfl, rfl, rfl, rfl, rfl, rfl, rfl, rfl, rfl, rfl, rfl, rfl, rfl, rfl, rfl, rfl, ?_, ?_⟩
  · intro h
    exact Nat.mod_eq_of_lt h
  · intro h
    exact Nat.mod_eq_of_lt h

/-- A concrete raw block whose state-code word (word 0) is 2 and whose
energy-total words are small, used to instantiate decoder theorems. -/
def code2Block : Fin 41 → Fin 65536 :=
  fun i => if i.val = 0 then (2 : Fin 65536) else (0 : Fin 65536)

theorem getStats_field_scaling_witness :
    (getStats "" code2Block).TotalTodayWatt = ((code2Block 26).val <<< 16 ||| (code2Block 27).val) * 100 ∧
    (getStats "" code2Block).TotalAllTimeWatt = ((code2Block 28).val <<< 16 ||| (code2Block 29).val) * 100 :=
  ⟨(getStats_field_scaling "" code2Block).2.2.2.2.2.2.2.2.2.2.2.2.2.2.2.2.1 (by decide),
   (getStats_field_scaling "" code2Block).2.2.2.2.2.2.2.2.2.2.2.2.2.2.2.2.2 (by decide)⟩

/-- C9: a raw state-code word whose value is not 0, 1 or 3 decodes to the
empty operating-state label, and the closed table maps 0 to waiting,
1 to normal and 3 to fault. -/
theorem stateCode_lookup_miss (ts : String) (d : Fin 41 → Fin 65536)
    (h0 : (d 0).val ≠ 0) (h1 : (d 0).val ≠ 1) (h3 : (d 0).val ≠ 3) :
    (getStats ts d).State = "" ∧
    InverterStateCodes 0 = "waiting" ∧
    InverterStateCodes 1 = "normal" ∧
    InverterStateCodes 3 = "fault" := by
  refine ⟨?_, rfl, rfl, rfl⟩
  show InverterStateCodes (d 0).val = ""
  simp [InverterStateCodes, h0, h1, h3]

theorem stateCode_lookup_miss_witness :
    (getStats "" code2Block).State = "" ∧
    InverterStateCodes 0 = "waiting" ∧
    InverterStateCodes 1 = "normal" ∧
    InverterStateCodes 3 = "fault" :=
  stateCode_lookup_miss "" code2Block (by decide) (by decide) (by decide)

/-- State carried across iterations of the stats branch of `Read`:
the last successfully decoded state label (initialised to
`InverterStateCodes 0`, i.e. waiting) and the consecutive-timeout counter. -/
structure ReadState where
  lastInverterState : String
  timeoutCnt : Nat
deriving DecidableEq

/-- Observable side effects of one stats tick of `Read`: the one-minute
backoff sleep, the transport disconnect and connect of a reconnect, and
sending a decoded record on the channel. -/
inductive ReadAction where
  | sleepMinute : ReadAction
  | disconnect : ReadAction
  | connect : ReadAction
  | send : Stats → ReadAction
deriving DecidableEq

/-- One stats-ticker iteration of `Read`: `res` is the outcome of
`getStats` (a decoded record, or the error's message string). Mirrors the
source: a timeout is an error whose message equals "request timed out";
with last state waiting and a timeout, sleep a minute and change nothing;
with a timeout otherwise, increment the counter and reconnect (disconnect
then connect) once it exceeds 10; with any other error, change nothing;
on success, send the record, store its label and reset the counter. -/
def readStep (st : ReadState) (res : Except String Stats) : ReadState × List ReadAction :=
  match res with
  | .error e =>
    let IsTimeoutError := e == "request timed out"
    if st.lastInverterState == InverterStateCodes 0 && IsTimeoutError then
      (st, [.sleepMinute])
    else
      if IsTimeoutError then
        let cnt := st.timeoutCnt + 1
        if cnt > 10 then
          ({ st with timeoutCnt := cnt }, [.disconnect, .connect])
        else
          ({ st with timeoutCnt := cnt }, [])
      else
        (st, [])
  | .ok stats =>
    ({ lastInverterState := stats.State, timeoutCnt := 0 }, [.send stats])

/-- Iterating the stats tick on a run of consecutive timeout errors. -/
def iterTimeout : Nat → ReadState → ReadState
  | 0, st => st
  | n + 1, st => iterTimeout n (readStep st (.error "request timed out")).1

lemma readStep_timeout_notWaiting (l : String) (c : Nat) (h : l ≠ "waiting") :
    readStep ⟨l, c⟩ (.error "request timed out") =
      (⟨l, c + 1⟩, if c + 1 > 10 then [.disconnect, .connect] else []) := by
  simp only [readStep, InverterStateCodes]
  have hb : (l == "waiting") = false := by
    simpa using h
  by_cases hc : 10 < c + 1 <;> simp [hb, hc]

lemma iterTimeout_notWaiting (l : String) (h : l ≠ "waiting") :
    ∀ n c, iterTimeout n ⟨l, c⟩ = ⟨l, c + n⟩ := by
  intro n
  induction n with
  | zero => intro c; rfl
  | succ m ih =>
    intro c
    rw [iterTimeout, readStep_timeout_notWaiting l c h]
    rw [ih (c + 1)]
    simp
    omega

/-- C2 (amended): starting from a non-waiting last state and a zero
counter, after `n` consecutive timeouts the counter equals `n` (the
reconnect never resets it; only a successful read does), the next timeout
triggers the disconnect-connect pair exactly when it is at least the
11th consecutive one, and a successful read resets the counter to 0. -/
theorem read_reconnect_policy (l : String) (h : l ≠ "waiting") (n : Nat) :
    (iterTimeout n ⟨l, 0⟩).timeoutCnt = n ∧
    ((readStep (iterTimeout n ⟨l, 0⟩) (.error "request timed out")).2 =
        [.disconnect, .connect] ↔ n + 1 > 10) ∧
    (∀ st : ReadState, ∀ s : Stats, (readStep st (.ok s)).1.timeoutCnt = 0) := by
  rw [iterTimeout_notWaiting l h n 0]
  simp only [Nat.zero_add]
  refine ⟨trivial, ?_, fun st s => rfl⟩
  rw [readStep_timeout_notWaiting l n h]
  by_cases h10 : n + 1 > 10 <;> simp [h10]

theorem read_reconnect_policy_witness :
    (iterTimeout 10 ⟨"normal", 0⟩).timeoutCnt = 10 ∧
    ((readStep (iterTimeout 10 ⟨"normal", 0⟩) (.error "request timed out")).2 =
        [.disconnect, .connect] ↔ 10 + 1 > 10) ∧
    (∀ st : ReadState, ∀ s : Stats, (readStep st (.ok s)).1.timeoutCnt = 0) :=
  read_reconnect_policy "normal" (by decide) 10

/-- C2 (counterexample to the claim as stated): from last state "normal"
and counter 0, after exactly 11 consecutive timeouts — each of which ran
the non-waiting branch — the counter is 11, not 0, and the 12th
consecutive timeout triggers a second disconnect-connect pair. -/
theorem read_reconnect_counter_cex :
    (iterTimeout 11 ⟨"normal", 0⟩).timeoutCnt = 11 ∧
    (readStep (iterTimeout 11 ⟨"normal", 0⟩) (.error "request timed out")).2 =
      [.disconnect, .connect] := by
  constructor <;> rfl

/-- C7: on a poll tick where the last observed label is waiting and the
read fails with a timeout, the machine takes the backoff branch (the
one-minute sleep) and the whole state — in particular the consecutive
timeout counter — is unchanged. -/
theorem read_waiting_backoff (c : Nat) :
    readStep ⟨"waiting", c⟩ (.error "request timed out") =
      (⟨"waiting", c⟩, [.sleepMinute]) := rfl

/-- C10: the loop classifies a failed read as a timeout exactly when the
error message equals "request timed out". Any other message leaves the
state untouched with no backoff or reconnect action; that exact message
triggers the timeout handling (backoff when the last label is waiting,
counting and possible reconnect otherwise), whatever the error's origin. -/
theorem read_timeout_classification (st : ReadState) (e : String) :
    (e ≠ "request timed out" → readStep st (.error e) = (st, [])) ∧
    (e = "request timed out" → readStep st (.error e) =
      (if st.lastInverterState = "waiting" then (st, [.sleepMinute])
       else ({ st with timeoutCnt := st.timeoutCnt + 1 },
         if st.timeoutCnt + 1 > 10 then [.disconnect, .connect] else []))) := by
  constructor
  · intro h
    have hb : (e == "request timed out") = false := by simpa using h
    simp [readStep, hb]
  · intro h
    subst h
    by_cases hw : st.lastInverterState = "waiting"
    · simp [readStep, InverterStateCodes, hw]
    · have hb : (st.lastInverterState == "waiting") = false := by simpa using hw
      by_cases hc : 10 < st.timeoutCnt + 1 <;>
        simp [readStep, InverterStateCodes, hb, hw, hc]

theorem read_timeout_classification_witness :
    readStep ⟨"normal", 0⟩ (.error "connection reset") = (⟨"normal", 0⟩, []) :=
  (read_timeout_classification ⟨"normal", 0⟩ "connection reset").1 (by decide)

/-- Observable steps of the consumer loop in `main`, in program order: the
retained state-topic publish of a State-Change Notice carrying the new
label, the assignment to the stored `lastInverterState`, and the
data-topic publish of the record itself. -/
inductive MainAction where
  | publishState : String → MainAction
  | setLast : String → MainAction
  | publishData : Stats → MainAction
deriving DecidableEq

/-- One iteration of the consumer loop of `main` on a received record:
when the stored label differs from the record's label, publish the notice
for the new label, then update the stored label; in every case publish
the record afterwards. Returns the new stored label and the actions in
program order. -/
def mainStep (l : String) (msg : Stats) : String × List MainAction :=
  if l ≠ msg.State then
    (msg.State, [.publishState msg.State, .setLast msg.State, .publishData msg])
  else
    (l, [.publishData msg])

/-- The consumer loop of `main` over a sequence of successfully decoded
records, starting from stored label `l` (the source starts it at
`InverterStateCodes 0`, i.e. waiting). -/
def mainRun (l : String) : List Stats → String × List MainAction
  | [] => (l, [])
  | m :: rest =>
    ((mainRun (mainStep l m).1 rest).1,
      (mainStep l m).2 ++ (mainRun (mainStep l m).1 rest).2)

/-- The labels of the State-Change Notices within a list of actions. -/
def noticesIn : List MainAction → List String
  | [] => []
  | .publishState lbl :: rest => lbl :: noticesIn rest
  | .setLast _ :: rest => noticesIn rest
  | .publishData _ :: rest => noticesIn rest

/-- The positions of a label sequence that differ from their immediate
predecessor, the first being compared with `l`: the labels the spec says
must be announced. -/
def changesFrom (l : String) : List String → List String
  | [] => []
  | s :: rest => (if l ≠ s then [s] else []) ++ changesFrom s rest

lemma mainRun_notices (l : String) (msgs : List Stats) :
    noticesIn (mainRun l msgs).2 = changesFrom l (msgs.map Stats.State) := by
  induction msgs generalizing l with
  | nil => rfl
  | cons m rest ih =>
    by_cases h : l = m.State <;>
      simp [mainRun, mainStep, noticesIn, changesFrom, h, ih]

/-- C3: over any sequence of decoded records consumed from the initial
assumed label "waiting", a State-Change Notice appears exactly for the
labels that differ from the immediately preceding decoded label (so none
on a first record whose label is "waiting"); and each iteration that
detects a change publishes the notice with the new label strictly before
the `setLast` update of the stored label, while an unchanged label
publishes only the record. -/
theorem main_state_change_notices (msgs : List Stats) :
    noticesIn (mainRun "waiting" msgs).2 = changesFrom "waiting" (msgs.map Stats.State) ∧
    (∀ l : String, ∀ m : Stats, (mainStep l m).2 =
      if l ≠ m.State then [.publishState m.State, .setLast m.State, .publishData m]
      else [.publishData m]) ∧
    (∀ m : Stats, m.State = "waiting" → noticesIn (mainRun "waiting" [m]).2 = []) := by
  refine ⟨mainRun_notices "waiting" msgs, ?_, ?_⟩
  · intro l m
    by_cases h : l = m.State <;> simp [mainStep, h]
  · intro m h
    rw [mainRun_notices]
    simp [changesFrom, h]

/-- A concrete record with label "waiting" and every numeric field 0. -/
def waitingStats : Stats :=
  { Timestamp := "", State := "waiting", PVInputPower := 0, PV1InputVolt := 0,
    PV1InputCurrent := 0, PV1InputWatt := 0, PV2InputVolt := 0,
    PV2InputCurrent := 0, PV2InputWatt := 0, ACWatt := 0, ACFrequency := 0,
    AC1Volt := 0, AC1Current := 0, AC1Watt := 0, AC2Volt := 0, AC2Current := 0,
    AC2Watt := 0, AC3Volt := 0, AC3Current := 0, AC3Watt := 0,
    TotalTodayWatt := 0, TotalAllTimeWatt := 0, TotalWorkTimeSecs := 0,
    Temperature := 0, FaultCode := 0 }

theorem main_state_change_notices_witness :
    noticesIn (mainRun "waiting" [waitingStats]).2 = [] :=
  (main_state_change_notices [waitingStats]).2.2 waitingStats rfl

/-- A calendar instant as the clock code sees it: `unixSec` is the
absolute position in whole seconds (both times here carry zero
nanoseconds, so the difference of the two instants in seconds is an
integer), and the six calendar components are the accessors the
field-wise writes compare. -/
structure GoTime where
  unixSec : Int
  second : Nat
  minute : Nat
  hour : Nat
  day : Nat
  month : Nat
  year : Nat
deriving DecidableEq

/-- Result of a clock write-back pass: the register writes attempted in
order (register, value), the error returned to the caller (none is
success), and whether the non-fatal year-write warning was logged. -/
structure SetTimeResult where
  writes : List (Nat × Nat)
  err : Option String
  warned : Bool
deriving DecidableEq

/-- One fatal clock-field block of `setTime`, for the field named `s` at
register `r` with device value `a` and target value `b`: skip when equal;
otherwise attempt the write, and on failure return the wrapped error
immediately, dropping the continuation `k`. `f r` tells whether the write
of register `r` fails. -/
def fatalStep (f : Nat → Bool) (s : String) (r a b : Nat)
    (ws : List (Nat × Nat)) (k : List (Nat × Nat) → SetTimeResult) : SetTimeResult :=
  if a = b then k ws
  else if f r then
    { writes := ws ++ [(r, b)],
      err := some ("failed to update time(" ++ s ++ ")"), warned := false }
  else k (ws ++ [(r, b)])

/-- The final year block of `setTime` (register 45): skip when equal;
otherwise attempt the write, and on failure merely log a warning — the
pass still returns success. -/
def yearStep (f : Nat → Bool) (a b : Nat) (ws : List (Nat × Nat)) : SetTimeResult :=
  if a = b then { writes := ws, err := none, warned := false }
  else if f 45 then { writes := ws ++ [(45, b)], err := none, warned := true }
  else { writes := ws ++ [(45, b)], err := none, warned := false }

/-- The clock write-back pass: the six blocks of the source in order —
second (register 50), minute (49), hour (48), day (47), month (46), each
fatal on write failure, then year (45), non-fatal. `f` models which
register writes fail. -/
def setTime (inverterTime now : GoTime) (f : Nat → Bool) : SetTimeResult :=
  fatalStep f "second" 50 inverterTime.second now.second [] (fun ws1 =>
    fatalStep f "minute" 49 inverterTime.minute now.minute ws1 (fun ws2 =>
      fatalStep f "hour" 48 inverterTime.hour now.hour ws2 (fun ws3 =>
        fatalStep f "day" 47 inverterTime.day now.day ws3 (fun ws4 =>
          fatalStep f "month" 46 inverterTime.month now.month ws4 (fun ws5 =>
            yearStep f inverterTime.year now.year ws5)))))

/-- The guard of `CheckSetTime`: compute the absolute difference of device
and host time in seconds; run the write-back pass only when it exceeds 30,
returning that pass's error and writes, else return success with no
writes. -/
def CheckSetTime (inverterTime now : GoTime) (f : Nat → Bool) :
    Option String × List (Nat × Nat) :=
  if (now.unixSec - inverterTime.unixSec).natAbs > 30 then
    ((setTime inverterTime now f).err, (setTime inverterTime now f).writes)
  else
    (none, [])

/-- The writes `setTime` would attempt with no failures: the differing
fields in the fixed order second, minute, hour, day, month, year. -/
def plannedWrites (inverterTime now : GoTime) : List (Nat × Nat) :=
  (if inverterTime.second = now.second then [] else [(50, now.second)]) ++
  ((if inverterTime.minute = now.minute then [] else [(49, now.minute)]) ++
  ((if inverterTime.hour = now.hour then [] else [(48, now.hour)]) ++
  ((if inverterTime.day = now.day then [] else [(47, now.day)]) ++
  ((if inverterTime.month = now.month then [] else [(46, now.month)]) ++
  (if inverterTime.year = now.year then [] else [(45, now.year)])))))

/-- C4: the 30-second threshold of `CheckSetTime`: a difference of at most
30 seconds (30 included) performs no register write and succeeds, while a
difference above 30 seconds (31 up) performs the field write-back pass. -/
theorem checkSetTime_threshold (t u : GoTime) (f : Nat → Bool) :
    ((u.unixSec - t.unixSec).natAbs ≤ 30 → CheckSetTime t u f = (none, [])) ∧
    ((u.unixSec - t.unixSec).natAbs > 30 →
      CheckSetTime t u f = ((setTime t u f).err, (setTime t u f).writes)) := by
  constructor
  · intro h
    have : ¬ (u.unixSec - t.unixSec).natAbs > 30 := by omega
    simp [CheckSetTime, this]
  · intro h
    simp [CheckSetTime, h]

lemma fatalStep_reach (f : Nat → Bool) (s : String) (r a b : Nat)
    (ws : List (Nat × Nat)) (k : List (Nat × Nat) → SetTimeResult)
    (h : a ≠ b → f r = false) :
    fatalStep f s r a b ws k = k (ws ++ if a = b then [] else [(r, b)]) := by
  by_cases hd : a = b
  · simp [fatalStep, hd]
  · simp [fatalStep, hd, h hd]

lemma fatalStep_inv (P : SetTimeResult → Prop) (f : Nat → Bool) (s : String)
    (r a b : Nat) (k : List (Nat × Nat) → SetTimeResult)
    (h : a ≠ b → f r = false) (hk : ∀ ws, P (k ws)) :
    ∀ ws, P (fatalStep f s r a b ws k) := by
  intro ws
  rw [fatalStep_reach f s r a b ws k h]
  exact hk _

lemma yearStep_nofail (f : Nat → Bool) (a b : Nat) (ws : List (Nat × Nat))
    (h : f 45 = false) :
    yearStep f a b ws =
      { writes := ws ++ (if a = b then [] else [(45, b)]), err := none, warned := false } := by
  by_cases hd : a = b <;> simp [yearStep, hd, h]

lemma fatalStep_planned_inv (f : Nat → Bool) (s : String) (r a b : Nat)
    (L : List (Nat × Nat)) (k : List (Nat × Nat) → SetTimeResult)
    (hk : ∀ ws, ∃ u, (k ws).writes ++ u = ws ++ L) :
    ∀ ws, ∃ u, (fatalStep f s r a b ws k).writes ++ u =
      ws ++ ((if a = b then [] else [(r, b)]) ++ L) := by
  intro ws
  by_cases hd : a = b
  · simpa [fatalStep, hd] using hk ws
  · by_cases hf : f r
    · exact ⟨L, by simp [fatalStep, hd, hf]⟩
    · obtain ⟨u, hu⟩ := hk (ws ++ [(r, b)])
      exact ⟨u, by simp only [fatalStep, if_neg hd, hf, Bool.false_eq_true,
        if_false]; rw [hu]; simp⟩

lemma yearStep_planned (f : Nat → Bool) (a b : Nat) :
    ∀ ws, ∃ u, (yearStep f a b ws).writes ++ u =
      ws ++ (if a = b then [] else [(45, b)]) := by
  intro ws
  by_cases hd : a = b
  · exact ⟨[], by simp [yearStep, hd]⟩
  · by_cases hf : f 45
    · exact ⟨[], by simp [yearStep, hd, hf]⟩
    · exact ⟨[], by simp [yearStep, hd, hf]⟩

/-- C6: in every write-back pass, whatever writes fail, the attempted
writes form a prefix of the planned list — the differing fields in the
fixed order second, minute, hour, day, month, year, skipping every field
whose device value already matches the target — and when no write fails
the attempted writes are exactly that planned list. -/
theorem setTime_order_and_skip (t u : GoTime) (f : Nat → Bool) :
    (∃ v, (setTime t u f).writes ++ v = plannedWrites t u) ∧
    ((∀ n, f n = false) → (setTime t u f).writes = plannedWrites t u) := by
  constructor
  · have h6 := yearStep_planned f t.year u.year
    have h5 := fatalStep_planned_inv f "month" 46 t.month u.month _ _ h6
    have h4 := fatalStep_planned_inv f "day" 47 t.day u.day _ _ h5
    have h3 := fatalStep_planned_inv f "hour" 48 t.hour u.hour _ _ h4
    have h2 := fatalStep_planned_inv f "minute" 49 t.minute u.minute _ _ h3
    have h1 := fatalStep_planned_inv f "second" 50 t.second u.second _ _ h2
    obtain ⟨v, hv⟩ := h1 []
    exact ⟨v, by rw [setTime]; rw [hv]; simp [plannedWrites]⟩
  · intro hA
    have e : ∀ s r a b ws k, fatalStep f s r a b ws k =
        k (ws ++ if a = b then [] else [(r, b)]) :=
      fun s r a b ws k => fatalStep_reach f s r a b ws k (fun _ => hA r)
    rw [setTime, e, e, e, e, e, yearStep_nofail f t.year u.year _ (hA 45)]
    simp [plannedWrites]

lemma yearStep_abortB (f : Nat → Bool) (a b : Nat) :
    ∀ ws, (∀ q ∈ ws, f q.1 = false) → (∀ q ∈ ws, 45 ≤ q.1) →
      ∀ m v, m ≠ 45 → (m, v) ∈ (yearStep f a b ws).writes → f m = true →
        (yearStep f a b ws).err ≠ none ∧
        ∀ q ∈ (yearStep f a b ws).writes, m ≤ q.1 := by
  intro ws hff _ m v h45 hmem hfm
  exfalso
  by_cases hd : a = b
  · simp only [yearStep, if_pos hd] at hmem
    rw [hff _ hmem] at hfm
    exact Bool.false_ne_true hfm
  · have hmem2 : (m, v) ∈ ws ++ [(45, b)] := by
      by_cases hf : f 45 <;> simpa [yearStep, hd, hf] using hmem
    rcases List.mem_append.mp hmem2 with hin | hin
    · rw [hff _ hin] at hfm
      exact Bool.false_ne_true hfm
    · have : m = 45 := by simpa using congrArg Prod.fst (List.mem_singleton.mp hin)
      exact h45 this

lemma fatalStep_abortB (f : Nat → Bool) (s : String) (r a b j : Nat)
    (k : List (Nat × Nat) → SetTimeResult)
    (hj : j ≤ r) (h45 : r ≠ 45)
    (hk : ∀ ws, (∀ q ∈ ws, f q.1 = false) → (∀ q ∈ ws, j ≤ q.1) →
      ∀ m v, m ≠ 45 → (m, v) ∈ (k ws).writes → f m = true →
        (k ws).err ≠ none ∧ ∀ q ∈ (k ws).writes, m ≤ q.1) :
    ∀ ws, (∀ q ∈ ws, f q.1 = false) → (∀ q ∈ ws, r ≤ q.1) →
      ∀ m v, m ≠ 45 → (m, v) ∈ (fatalStep f s r a b ws k).writes → f m = true →
        (fatalStep f s r a b ws k).err ≠ none ∧
        ∀ q ∈ (fatalStep f s r a b ws k).writes, m ≤ q.1 := by
  intro ws hff hbd m v h45' hmem hfm
  by_cases hd : a = b
  · simp only [fatalStep, if_pos hd] at hmem ⊢
    exact hk ws hff (fun q hq => le_trans hj (hbd q hq)) m v h45' hmem hfm
  · by_cases hfr : f r
    · simp only [fatalStep, if_neg hd, if_pos hfr] at hmem ⊢
      refine ⟨by simp, ?_⟩
      rcases List.mem_append.mp hmem with hin | hin
      · rw [hff _ hin] at hfm
        exact absurd hfm Bool.false_ne_true
      · have hm : m = r := by simpa using congrArg Prod.fst (List.mem_singleton.mp hin)
        subst hm
        intro q hq
        rcases List.mem_append.mp hq with h1 | h1
        · exact hbd q h1
        · rw [List.mem_singleton.mp h1]
    · simp only [fatalStep, if_neg hd, if_neg (by simp [hfr] : ¬ (f r = true))] at hmem ⊢
      refine hk (ws ++ [(r, b)]) ?_ ?_ m v h45' hmem hfm
      · intro q hq
        rcases List.mem_append.mp hq with h1 | h1
        · exact hff q h1
        · rw [List.mem_singleton.mp h1]
          simpa using hfr
      · intro q hq
        rcases List.mem_append.mp hq with h1 | h1
        · exact le_trans hj (hbd q h1)
        · rw [List.mem_singleton.mp h1]
          exact hj

/-- C5: error policy of the write-back pass. First part: whenever every
differing fatal field (second, minute, hour, day, month) writes
successfully, the pass returns success even if the year write fails — and
a failing year write is recorded by the warning flag with the year write
attempted. Second part: if a fatal field's write was attempted and its
register's write fails, the pass returns an error and no register below
it (no later, more significant field, year included) is ever written. -/
theorem setTime_error_policy (t u : GoTime) (f : Nat → Bool) :
    ((t.second ≠ u.second → f 50 = false) →
     (t.minute ≠ u.minute → f 49 = false) →
     (t.hour ≠ u.hour → f 48 = false) →
     (t.day ≠ u.day → f 47 = false) →
     (t.month ≠ u.month → f 46 = false) →
       (setTime t u f).err = none ∧
       (t.year ≠ u.year → f 45 = true →
         (setTime t u f).warned = true ∧ (45, u.year) ∈ (setTime t u f).writes)) ∧
    (∀ m v, m ≠ 45 → (m, v) ∈ (setTime t u f).writes → f m = true →
      (setTime t u f).err ≠ none ∧ ∀ q ∈ (setTime t u f).writes, m ≤ q.1) := by
  constructor
  · intro h50 h49 h48 h47 h46
    let P : SetTimeResult → Prop := fun res =>
      res.err = none ∧ (t.year ≠ u.year → f 45 = true →
        res.warned = true ∧ (45, u.year) ∈ res.writes)
    have hbase : ∀ ws, P (yearStep f t.year u.year ws) := by
      intro ws
      by_cases hd : t.year = u.year
      · simp [P, yearStep, hd]
      · by_cases hf : f 45 <;> simp [P, yearStep, hd, hf]
    have h5 := fatalStep_inv P f "month" 46 t.month u.month _ h46 hbase
    have h4 := fatalStep_inv P f "day" 47 t.day u.day _ h47 h5
    have h3 := fatalStep_inv P f "hour" 48 t.hour u.hour _ h48 h4
    have h2 := fatalStep_inv P f "minute" 49 t.minute u.minute _ h49 h3
    have h1 := fatalStep_inv P f "second" 50 t.second u.second _ h50 h2
    exact h1 []
  · have h6 := yearStep_abortB f t.year u.year
    have h5 := fatalStep_abortB f "month" 46 t.month u.month 45 _ (by omega) (by omega) h6
    have h4 := fatalStep_abortB f "day" 47 t.day u.day 46 _ (by omega) (by omega) h5
    have h3 := fatalStep_abortB f "hour" 48 t.hour u.hour 47 _ (by omega) (by omega) h4
    have h2 := fatalStep_abortB f "minute" 49 t.minute u.minute 48 _ (by omega) (by omega) h3
    have h1 := fatalStep_abortB f "second" 50 t.second u.second 49 _ (by omega) (by omega) h2
    intro m v h45 hmem hfm
    exact h1 [] (by simp) (by simp) m v h45 hmem hfm

/-- Failure injection that fails only the year register. -/
def failYearOnly : Nat → Bool := fun n => n == 45

/-- Device clock a year behind `hostClock31` in the year field only. -/
def devClockOldYear : GoTime := ⟨0, 0, 0, 0, 1, 1, 2023⟩

/-- Host clock for the year-failure witness. -/
def hostClockNewYear : GoTime := ⟨40, 0, 0, 0, 1, 1, 2024⟩

theorem setTime_error_policy_witness :
    (setTime devClockOldYear hostClockNewYear failYearOnly).err = none ∧
    (setTime devClockOldYear hostClockNewYear failYearOnly).warned = true ∧
    (45, 2024) ∈ (setTime devClockOldYear hostClockNewYear failYearOnly).writes := by
  have h := (setTime_error_policy devClockOldYear hostClockNewYear failYearOnly).1
    (by decide) (by decide) (by decide) (by decide) (by decide)
  have h2 := h.2 (by decide) (by decide)
  exact ⟨h.1, h2.1, h2.2⟩

def noFail : Nat → Bool := fun _ => false

/-- Device clock used to instantiate the clock theorems. -/
def devClock : GoTime := ⟨0, 0, 0, 0, 1, 1, 2024⟩

/-- Host clock 31 seconds ahead of `devClock`, differing in the second field. -/
def hostClock31 : GoTime := ⟨31, 31, 0, 0, 1, 1, 2024⟩

theorem setTime_order_and_skip_witness :
    (∃ v, (setTime devClock hostClock31 noFail).writes ++ v =
        plannedWrites devClock hostClock31) ∧
    (setTime devClock hostClock31 noFail).writes = plannedWrites devClock hostClock31 :=
  ⟨(setTime_order_and_skip devClock hostClock31 noFail).1,
   (setTime_order_and_skip devClock hostClock31 noFail).2 (fun _ => rfl)⟩

/-- Host clock exactly 30 seconds ahead of `devClock`. -/
def hostClock30 : GoTime := ⟨30, 30, 0, 0, 1, 1, 2024⟩

theorem checkSetTime_threshold_witness :
    CheckSetTime devClock hostClock30 noFail = (none, []) ∧
    CheckSetTime devClock hostClock31 noFail = (none, [(50, 31)]) :=
  ⟨(checkSetTime_threshold devClock hostClock30 noFail).1 (by decide),
   by rw [(checkSetTime_threshold devClock hostClock31 noFail).2 (by decide)]; decide⟩

end Growatt
